import Mathlib

/-!
Shallow embedding of the GERG-Type-Validation package
(src/src/gerg_type_validation/, with the near-identical copy in src/src/core.py).

Modelling conventions:
* Python runtime values are the inductive `PyVal`; Python's `bool` is a runtime
  subclass of `int`, which `isinstanceB` encodes.
* `int` payloads are rationals `ℚ`; `float` payloads (values and range
  bounds) are `PyFloat`, a rational extended with the unordered `nan` — every
  comparison involving a NaN is `False`, as in IEEE.  The code only ever
  compares numbers (no arithmetic), so this carrier is faithful, NaN
  included; the infinities, on which the code and the usual order agree,
  are not distinguished, and float formatting in error text is abstracted
  by `numRepr`.
* Exceptions are `Except PyExc _`; the configured error class is a `Nat` tag
  (`typeAssertionErrorId` is the default `TypeAssertionError`).
* The caller-frame name extractor is pure string introspection of the call
  site; it is modelled by a parameter `resolvedName : String` giving the name
  the extractor produced, and `_get_variable_name` applies the
  `auto_extract_names` switch exactly as the source does.
* The filesystem behind `PathValidator` is a parameter `kind : String → PathKind`.
* Single quotes inside generated messages are built with `qs`.
-/

/-- The Python `'` character, used to quote names in error messages. -/
def qs : String := String.singleton (Char.ofNat 39)

/-- Identifier of the default `TypeAssertionError` class (exceptions.py). -/
def typeAssertionErrorId : Nat := 0

/-- Exceptions the embedded code can raise: an instance of the configured
validation-error class, a built-in `ValueError`, or a built-in `TypeError`. -/
inductive PyExc where
  | validationFailure (cls : Nat) (msg : String)
  | valueError (msg : String)
  | typeError (msg : String)
deriving DecidableEq

/-- The Python types the package manipulates (`type(v)` results plus the
types used as `expected_type` arguments). -/
inductive PyType where
  | tBool
  | tInt
  | tFloat
  | tStr
  | tBytes
  | tList
  | tTuple
  | tDict
  | tNoneType
  | tPath
deriving DecidableEq

/-- Python name (`__name__`) of each modelled type (for `PyType.tPath`,
`pathlib.Path` objects report `PosixPath` at runtime). -/
def PyType.pyName : PyType → String
  | .tBool => "bool"
  | .tInt => "int"
  | .tFloat => "float"
  | .tStr => "str"
  | .tBytes => "bytes"
  | .tList => "list"
  | .tTuple => "tuple"
  | .tDict => "dict"
  | .tNoneType => "NoneType"
  | .tPath => "PosixPath"

/-- A Python `float`: a finite (rational) value, or the unordered `nan`,
for which every `<`/`>`/`<=` comparison is `False`. -/
inductive PyFloat where
  | val (q : ℚ)
  | nan
deriving DecidableEq

/-- Numeric literals denote finite floats, as in the source code's calls. -/
instance (n : Nat) : OfNat PyFloat n := ⟨PyFloat.val (OfNat.ofNat n)⟩

/-- Python runtime values relevant to the validators.  Bytes are a list of
byte codes; `vPath` carries the string the `Path` object wraps; dict keys are
strings (the only keys `assert_mapping`'s `required_keys` can name). -/
inductive PyVal where
  | vBool (b : Bool)
  | vInt (n : ℚ)
  | vFloat (x : PyFloat)
  | vStr (s : String)
  | vBytes (bs : List Nat)
  | vList (xs : List String)
  | vTuple (xs : List String)
  | vDict (entries : List (String × ℚ))
  | vNone
  | vPath (p : String)
deriving DecidableEq

/-- Runtime type `type(v)` of the modelled values. -/
def PyVal.typeOf : PyVal → PyType
  | .vBool _ => .tBool
  | .vInt _ => .tInt
  | .vFloat _ => .tFloat
  | .vStr _ => .tStr
  | .vBytes _ => .tBytes
  | .vList _ => .tList
  | .vTuple _ => .tTuple
  | .vDict _ => .tDict
  | .vNone => .tNoneType
  | .vPath _ => .tPath

/-- Python `isinstance(v, t)` for the modelled types.  The one proper
subclass relation in play is `bool <: int`. -/
def isinstanceB (v : PyVal) (t : PyType) : Bool :=
  match v.typeOf, t with
  | .tBool, .tInt => true
  | a, b => a == b

/-- The `expected_type` argument of the type validator: a single class, a
Python `list` of classes, or a `tuple` of classes (`isinstance` accepts a
tuple, but `get_error_message`'s `isinstance(expected_type, list)` branch
does not fire for it). -/
inductive ExpectedType where
  | single (t : PyType)
  | listOf (ts : List PyType)
  | tupleOf (ts : List PyType)
deriving DecidableEq

/-- Membership test `TypeValidator.validate` performs once `expected_type`
is present. -/
def ExpectedType.member (et : ExpectedType) (v : PyVal) : Bool :=
  match et with
  | .single t => isinstanceB v t
  | .listOf ts => ts.any (fun t => isinstanceB v t)
  | .tupleOf ts => ts.any (fun t => isinstanceB v t)

/-- Python `str` of a list of strings, e.g. `['int', 'float']`
(each element rendered with `repr`, joined by `, `, wrapped in brackets). -/
def quoteJoin : List String → String
  | [] => ""
  | [s] => qs ++ s ++ qs
  | s :: rest => qs ++ s ++ qs ++ ", " ++ quoteJoin rest

/-- Python `str` applied to a list of strings. -/
def pyListRepr (xs : List String) : String := "[" ++ quoteJoin xs ++ "]"

/-- Python `str` applied to a tuple of classes, e.g.
`(<class 'int'>, <class 'float'>)` — the `get_error_message` fallback
`str(expected_type)` for a tuple argument. -/
def pyTupleClassRepr (ts : List PyType) : String :=
  "(" ++ String.intercalate ", " (ts.map (fun t => "<class " ++ qs ++ t.pyName ++ qs ++ ">")) ++ ")"

/-- validators.py `TypeValidator.validate`: `kwargs.get('expected_type')`
missing raises `ValueError`; a list argument means "any of"; otherwise plain
`isinstance` (a tuple also meaning "any of"). -/
def TypeValidator.validate (value : PyVal) (expected_type : Option ExpectedType) :
    Except PyExc Bool :=
  match expected_type with
  | none => .error (.valueError "expected_type must be provided")
  | some et => .ok (et.member value)

/-- validators.py `TypeValidator.get_error_message` (raises the same
`ValueError` when `expected_type` is missing). -/
def TypeValidator.get_error_message (value : PyVal) (var_name : String)
    (expected_type : Option ExpectedType) : Except PyExc String :=
  match expected_type with
  | none => .error (.valueError "expected_type must be provided")
  | some et =>
    match et with
    | .listOf ts =>
        .ok (qs ++ var_name ++ qs ++ " must be one of types " ++
          pyListRepr (ts.map PyType.pyName) ++ ", but got " ++ qs ++
          (PyVal.typeOf value).pyName ++ qs)
    | .single t =>
        .ok (qs ++ var_name ++ qs ++ " must be of type " ++ qs ++ t.pyName ++ qs ++
          ", but got " ++ qs ++ (PyVal.typeOf value).pyName ++ qs)
    | .tupleOf ts =>
        .ok (qs ++ var_name ++ qs ++ " must be of type " ++ qs ++ pyTupleClassRepr ts ++
          qs ++ ", but got " ++ qs ++ (PyVal.typeOf value).pyName ++ qs)

/-- Abstract rendering of a number in error text (Python's `str` of an
`int`/`float`; the exact float formatting is irrelevant to every claim). -/
def numRepr (q : ℚ) : String := toString q

/-- Python comparison `v < b` for a numeric bound `b`: defined for `int`,
`float` and `bool` operands (a `bool` compares as `0`/`1`); any comparison
involving a NaN — a NaN value or a NaN bound — is `False`; any other
operand type raises `TypeError`. -/
def pyLt (v : PyVal) (b : PyFloat) : Except PyExc Bool :=
  match v, b with
  | .vInt n, .val m => .ok (decide (n < m))
  | .vInt _, .nan => .ok false
  | .vFloat (.val x), .val m => .ok (decide (x < m))
  | .vFloat _, _ => .ok false
  | .vBool bb, .val m => .ok (decide ((if bb then (1 : ℚ) else 0) < m))
  | .vBool _, .nan => .ok false
  | _, _ => .error (.typeError "unsupported operand types for comparison")

/-- Python comparison `v > b` (same operand rules as `pyLt`). -/
def pyGt (v : PyVal) (b : PyFloat) : Except PyExc Bool :=
  match v, b with
  | .vInt n, .val m => .ok (decide (m < n))
  | .vInt _, .nan => .ok false
  | .vFloat (.val x), .val m => .ok (decide (m < x))
  | .vFloat _, _ => .ok false
  | .vBool bb, .val m => .ok (decide (m < (if bb then (1 : ℚ) else 0)))
  | .vBool _, .nan => .ok false
  | _, _ => .error (.typeError "unsupported operand types for comparison")

/-- Python `<=` on floats, the spec side of the C5 range property: `False`
whenever either side is NaN. -/
def PyFloat.le (a b : PyFloat) : Bool :=
  match a, b with
  | .val x, .val y => decide (x ≤ y)
  | _, _ => false

/-- validators.py `RangeValidator.validate`: fail when below `min_val` or
above `max_val`; an absent bound is not checked. -/
def RangeValidator.validate (value : PyVal) (min_val max_val : Option PyFloat) :
    Except PyExc Bool := do
  if let some m := min_val then
    if (← pyLt value m) then return false
  if let some m := max_val then
    if (← pyGt value m) then return false
  return true

/-- Python `str(value)` for the numeric values range messages show
(float formatting abstracted, like `numRepr`). -/
def PyFloat.pyRepr : PyFloat → String
  | .val q => numRepr q
  | .nan => "nan"

/-- Python `str(value)` for the numeric values range messages show
(float formatting abstracted, like `numRepr`). -/
def pyNumStr : PyVal → String
  | .vInt n => numRepr n
  | .vFloat x => x.pyRepr
  | .vBool b => if b then "True" else "False"
  | _ => "<value>"

/-- validators.py `RangeValidator.get_error_message` (re-runs the same
comparisons, so it is also partial in the value's comparability). -/
def RangeValidator.get_error_message (value : PyVal) (var_name : String)
    (min_val max_val : Option PyFloat) : Except PyExc String := do
  if let some m := min_val then
    if (← pyLt value m) then
      return qs ++ var_name ++ qs ++ " must be >= " ++ m.pyRepr ++ ", but got " ++ pyNumStr value
  if let some m := max_val then
    if (← pyGt value m) then
      return qs ++ var_name ++ qs ++ " must be <= " ++ m.pyRepr ++ ", but got " ++ pyNumStr value
  return qs ++ var_name ++ qs ++ " is out of valid range"

/-- Python `len(value)`; `none` models the `TypeError` the `try` in the
length validator catches for unsized values. -/
def pyLen : PyVal → Option Nat
  | .vStr s => some s.length
  | .vBytes bs => some bs.length
  | .vList xs => some xs.length
  | .vTuple xs => some xs.length
  | .vDict d => some d.length
  | _ => none

/-- validators.py `LengthValidator.validate`: unsized values fail; then the
exact `length`, `min_len` and `max_len` constraints are each checked (note:
`min_len`/`max_len` are still checked when `length` is given). -/
def LengthValidator.validate (value : PyVal) (min_len max_len length : Option Int) : Bool :=
  match pyLen value with
  | none => false
  | some val_len =>
    if length.any (fun k => decide ((val_len : Int) ≠ k)) then false
    else if min_len.any (fun m => decide ((val_len : Int) < m)) then false
    else if max_len.any (fun m => decide (m < (val_len : Int))) then false
    else true

/-- Tail of the length error message once the exact-length branch did not
fire: the `min_len` branch, then the `max_len` branch, then the fallback. -/
def lenMinMaxMsg (var_name : String) (val_len : Nat) (min_len max_len : Option Int) : String :=
  match min_len with
  | some m =>
    if (val_len : Int) < m then
      qs ++ var_name ++ qs ++ " must have length >= " ++ toString m ++
        ", but got " ++ toString val_len
    else lenMaxMsg
  | none => lenMaxMsg
where
  lenMaxMsg : String :=
    match max_len with
    | some m =>
      if m < (val_len : Int) then
        qs ++ var_name ++ qs ++ " must have length <= " ++ toString m ++
          ", but got " ++ toString val_len
      else qs ++ var_name ++ qs ++ " has invalid length"
    | none => qs ++ var_name ++ qs ++ " has invalid length"

/-- validators.py `LengthValidator.get_error_message` (same branch order:
exact beats min beats max). -/
def LengthValidator.get_error_message (value : PyVal) (var_name : String)
    (min_len max_len length : Option Int) : String :=
  match pyLen value with
  | none =>
      qs ++ var_name ++ qs ++ " must have a length, but got " ++ (PyVal.typeOf value).pyName
  | some val_len =>
    match length with
    | some k =>
      if (val_len : Int) ≠ k then
        qs ++ var_name ++ qs ++ " must have length = " ++ toString k ++
          ", but got " ++ toString val_len
      else lenMinMaxMsg var_name val_len min_len max_len
    | none => lenMinMaxMsg var_name val_len min_len max_len

/-- validation_config.py `ValidationConfig`: the four configuration fields
(the error class is the `Nat` identifier of an exception type). -/
structure ValidationConfig where
  strict_mode : Bool
  auto_extract_names : Bool
  raise_on_failure : Bool
  custom_error_class : Nat
deriving DecidableEq

/-- Default `ValidationConfig()` (all flags true, `TypeAssertionError`). -/
def ValidationConfig.default : ValidationConfig :=
  ValidationConfig.mk true true true typeAssertionErrorId

/-- Python `msg or generated`: an explicit non-empty custom message wins;
`None` or the falsy empty string falls back to the generated one. -/
def pyOrMsg (msg : Option String) (generated : Except PyExc String) : Except PyExc String :=
  match msg with
  | some s => if s.isEmpty then generated else .ok s
  | none => generated

/-- type_validation_engine.py `TypeValidationEngine._get_variable_name`:
use the extractor's result only when `auto_extract_names` is on, else the
literal `"value"`.  `resolvedName` is the string the caller-frame extractor
produced for this call site. -/
def TypeValidationEngine.get_variable_name (cfg : ValidationConfig)
    (resolvedName : String) : String :=
  if cfg.auto_extract_names then resolvedName else "value"

/-- type_validation_engine.py `TypeValidationEngine._validate_with_engine`,
abstracted over the selected validator's already-computed outcome `vres`
and its (lazily rendered) error message `emsg`: propagate a programming
error; on a failed check raise the configured class only when
`raise_on_failure` is set, else return the boolean. -/
def TypeValidationEngine.validate_with_engine (cfg : ValidationConfig)
    (resolvedName : String) (vres : Except PyExc Bool)
    (emsg : String → Except PyExc String) (custom_msg : Option String) :
    Except PyExc Bool :=
  match vres with
  | .error e => .error e
  | .ok true => .ok true
  | .ok false =>
    if cfg.raise_on_failure then
      match pyOrMsg custom_msg (emsg (TypeValidationEngine.get_variable_name cfg resolvedName)) with
      | .ok m => .error (.validationFailure cfg.custom_error_class m)
      | .error e => .error e
    else .ok false

/-- type_validation_engine.py `TypeValidationEngine.assert_type` via
`_assert_with_engine('type', ...)`: run the type validator, raise on a
failing check when configured, and otherwise return the value unchanged. -/
def TypeValidationEngine.assert_type (cfg : ValidationConfig) (resolvedName : String)
    (value : PyVal) (expected_type : Option ExpectedType) (msg : Option String) :
    Except PyExc PyVal :=
  (TypeValidationEngine.validate_with_engine cfg resolvedName
      (TypeValidator.validate value expected_type)
      (fun vn => TypeValidator.get_error_message value vn expected_type) msg).map
    (fun _ => value)

/-- type_validation_engine.py `TypeValidationEngine.is_type`: a pure
`isinstance` check, never raising. -/
def TypeValidationEngine.is_type (value : PyVal) (expected_type : PyType) : Bool :=
  isinstanceB value expected_type

/-- type_validation_engine.py `TypeValidationEngine.is_not_none`. -/
def TypeValidationEngine.is_not_none (value : PyVal) : Bool :=
  value ≠ PyVal.vNone

/-- type_validation_engine.py `TypeValidationEngine.assert_not_none`:
raises directly (not via `_validate_with_engine`, hence regardless of
`raise_on_failure`) when the value is `None`. -/
def TypeValidationEngine.assert_not_none (cfg : ValidationConfig) (resolvedName : String)
    (value : PyVal) (msg : Option String) : Except PyExc PyVal :=
  if value = PyVal.vNone then
    match pyOrMsg msg (.ok (qs ++ TypeValidationEngine.get_variable_name cfg resolvedName ++
        qs ++ " must not be None")) with
    | .ok m => .error (.validationFailure cfg.custom_error_class m)
    | .error e => .error e
  else .ok value

/-- type_validation_engine.py `TypeValidationEngine.assert_numeric`: type
check against the tuple `(int, float)` first, then the range check when a
bound is present; returns the value unchanged. -/
def TypeValidationEngine.assert_numeric (cfg : ValidationConfig) (resolvedName : String)
    (value : PyVal) (min_val max_val : Option PyFloat) (msg : Option String) :
    Except PyExc PyVal := do
  let _ ← TypeValidationEngine.validate_with_engine cfg resolvedName
      (TypeValidator.validate value (some (.tupleOf [.tInt, .tFloat])))
      (fun vn => TypeValidator.get_error_message value vn (some (.tupleOf [.tInt, .tFloat]))) msg
  if min_val.isSome || max_val.isSome then
    let _ ← TypeValidationEngine.validate_with_engine cfg resolvedName
        (RangeValidator.validate value min_val max_val)
        (fun vn => RangeValidator.get_error_message value vn min_val max_val) msg
  return value

/-- type_validation_engine.py `TypeValidationEngine.assert_string_like`:
type check against `(str, bytes)`, then length bounds when present. -/
def TypeValidationEngine.assert_string_like (cfg : ValidationConfig) (resolvedName : String)
    (value : PyVal) (min_len max_len : Option Int) (msg : Option String) :
    Except PyExc PyVal := do
  let _ ← TypeValidationEngine.validate_with_engine cfg resolvedName
      (TypeValidator.validate value (some (.tupleOf [.tStr, .tBytes])))
      (fun vn => TypeValidator.get_error_message value vn (some (.tupleOf [.tStr, .tBytes]))) msg
  if min_len.isSome || max_len.isSome then
    let _ ← TypeValidationEngine.validate_with_engine cfg resolvedName
        (.ok (LengthValidator.validate value min_len max_len none))
        (fun vn => .ok (LengthValidator.get_error_message value vn min_len max_len none)) msg
  return value

/-- type_validation_engine.py `TypeValidationEngine.assert_sequence`: type
check against `(list, tuple)`, then length constraints (including the exact
`length`) when present. -/
def TypeValidationEngine.assert_sequence (cfg : ValidationConfig) (resolvedName : String)
    (value : PyVal) (min_len max_len length : Option Int) (msg : Option String) :
    Except PyExc PyVal := do
  let _ ← TypeValidationEngine.validate_with_engine cfg resolvedName
      (TypeValidator.validate value (some (.tupleOf [.tList, .tTuple])))
      (fun vn => TypeValidator.get_error_message value vn (some (.tupleOf [.tList, .tTuple]))) msg
  if min_len.isSome || max_len.isSome || length.isSome then
    let _ ← TypeValidationEngine.validate_with_engine cfg resolvedName
        (.ok (LengthValidator.validate value min_len max_len length))
        (fun vn => .ok (LengthValidator.get_error_message value vn min_len max_len length)) msg
  return value

/-- type_validation_engine.py `TypeValidationEngine.assert_range`. -/
def TypeValidationEngine.assert_range (cfg : ValidationConfig) (resolvedName : String)
    (value : PyVal) (min_val max_val : Option PyFloat) (msg : Option String) :
    Except PyExc PyVal := do
  let _ ← TypeValidationEngine.validate_with_engine cfg resolvedName
      (RangeValidator.validate value min_val max_val)
      (fun vn => RangeValidator.get_error_message value vn min_val max_val) msg
  return value

/-- type_validation_engine.py `TypeValidationEngine.assert_length` — note
its signature exposes only `min_len`/`max_len`, no exact-length parameter. -/
def TypeValidationEngine.assert_length (cfg : ValidationConfig) (resolvedName : String)
    (value : PyVal) (min_len max_len : Option Int) (msg : Option String) :
    Except PyExc PyVal := do
  let _ ← TypeValidationEngine.validate_with_engine cfg resolvedName
      (.ok (LengthValidator.validate value min_len max_len none))
      (fun vn => .ok (LengthValidator.get_error_message value vn min_len max_len none)) msg
  return value

/-- Executable substring test (Python `sub in s` for strings). -/
def strContainsB (s sub : String) : Bool :=
  (List.range (s.data.length + 1)).any (fun i => sub.data.isPrefixOf (s.data.drop i))

/-- Python membership `k in value`: dict keys, string substring, element of
a list/tuple; other receivers raise `TypeError`. -/
def pyContains (value : PyVal) (k : String) : Except PyExc Bool :=
  match value with
  | .vDict d => .ok (d.any (fun kv => kv.1 == k))
  | .vStr s => .ok (strContainsB s k)
  | .vList xs => .ok (xs.any (fun x => x == k))
  | .vTuple xs => .ok (xs.any (fun x => x == k))
  | _ => .error (.typeError "argument is not iterable")

/-- The `required_keys` argument of `assert_mapping`: a single key string or
a list of key strings. -/
inductive ReqKeys where
  | single (s : String)
  | list (ss : List String)
deriving DecidableEq

/-- Keys `assert_mapping` iterates over (`[required_keys]` for a bare
string). -/
def ReqKeys.toList : ReqKeys → List String
  | .single s => [s]
  | .list ss => ss

/-- Missing-key message of `assert_mapping`: singular phrasing for exactly
one missing key, Python list rendering for several. -/
def missingKeysMsg (var_name : String) (missing_keys : List String) : String :=
  match missing_keys with
  | [k] => qs ++ var_name ++ qs ++ " missing required key: " ++ qs ++ k ++ qs
  | ks => qs ++ var_name ++ qs ++ " missing required keys: " ++ pyListRepr ks

/-- Computes `missing_keys = [key for key in keys_to_check if key not in value]`,
propagating the `TypeError` a non-container receiver would raise. -/
def computeMissingKeys (value : PyVal) : List String → Except PyExc (List String)
  | [] => .ok []
  | k :: rest => do
    let present ← pyContains value k
    let tail ← computeMissingKeys value rest
    if present then return tail else return k :: tail

/-- type_validation_engine.py `TypeValidationEngine.assert_mapping`: type
check against `dict`, then the special-cased required-keys check, which
raises directly (regardless of `raise_on_failure`) when keys are missing. -/
def TypeValidationEngine.assert_mapping (cfg : ValidationConfig) (resolvedName : String)
    (value : PyVal) (required_keys : Option ReqKeys) (msg : Option String) :
    Except PyExc PyVal := do
  let _ ← TypeValidationEngine.validate_with_engine cfg resolvedName
      (TypeValidator.validate value (some (.single .tDict)))
      (fun vn => TypeValidator.get_error_message value vn (some (.single .tDict))) msg
  match required_keys with
  | none => return value
  | some rk =>
    let var_name := TypeValidationEngine.get_variable_name cfg resolvedName
    let missing_keys ← computeMissingKeys value rk.toList
    if missing_keys.isEmpty then return value
    else
      match pyOrMsg msg (.ok (missingKeysMsg var_name missing_keys)) with
      | .ok m => throw (.validationFailure cfg.custom_error_class m)
      | .error e => throw e

/-- What a filesystem path currently is: absent, a regular file, or a
directory. -/
inductive PathKind where
  | absent
  | file
  | dir
deriving DecidableEq

/-- The filesystem and `pathlib` environment `assert_path` runs against:
the kind of each path, `Path.parent`, and `Path.mkdir(parents=True,
exist_ok=True)` (returning the updated kinds, or an `OSError` text). -/
structure FSEnv where
  kind : String → PathKind
  parentOf : String → String
  mkdirParents : String → Except String (String → PathKind)

/-- Python `path.exists()` against an `FSEnv` kind map. -/
def pathExistsB (kind : String → PathKind) (p : String) : Bool :=
  kind p ≠ PathKind.absent

/-- True when Python's `value.strip()` is empty: the string is empty or
consists solely of (ASCII) whitespace. -/
def stripIsEmpty (s : String) : Bool :=
  s.data.all (fun c => c == ' ' || c == '\t' || c == '\n' || c == '\r' ||
    c == Char.ofNat 11 || c == Char.ofNat 12)

/-- True when `assert_path`'s emptiness guard fires: a `str` whose `strip()`
is empty, or an empty `bytes`. -/
def isEmptyStrBytes (value : PyVal) : Bool :=
  match value with
  | .vStr s => stripIsEmpty s
  | .vBytes bs => bs.isEmpty
  | _ => false

/-- Conversion of a value to a `Path` string as `assert_path` performs it:
`Path` objects pass through, `str`/`bytes` go through `Path(str(value))`,
anything else raises `TypeError` inside `Path(value)` (modelled for the
non-os.PathLike values `PyVal` contains).  `pathlib`'s separator
normalisation is not modelled; the claims only use already-normal paths. -/
def pathConvert (value : PyVal) : Except String String :=
  match value with
  | .vPath p => .ok p
  | .vStr s => .ok s
  | .vBytes bs => .ok ("b" ++ qs ++ String.mk (bs.map Char.ofNat) ++ qs)
  | _ => .error "argument should be a str or an os.PathLike object, not the given type"

/-- The four predicate checks of `PathValidator.validate` on the converted
`path_obj`. -/
def PathValidator.checks (kind : String → PathKind) (p : String) (must_exist : Option Bool)
    (must_be_file must_be_dir : Bool) : Bool :=
  if must_exist = some true && !(pathExistsB kind p) then false
  else if must_exist = some false && pathExistsB kind p then false
  else if must_be_file && (!(pathExistsB kind p) || !(kind p == PathKind.file)) then false
  else if must_be_dir && (!(pathExistsB kind p) || !(kind p == PathKind.dir)) then false
  else true

/-- validators.py `PathValidator.validate`: convert (empty strings/bytes
and inconvertible values fail), then apply the `must_exist` /
`must_be_file` / `must_be_dir` predicates in order. -/
def PathValidator.validate (kind : String → PathKind) (value : PyVal)
    (must_exist : Option Bool) (must_be_file must_be_dir : Bool) : Bool :=
  match value with
  | .vStr s => if stripIsEmpty s then false else PathValidator.checks kind s must_exist must_be_file must_be_dir
  | .vBytes bs => if bs.isEmpty then false else
      PathValidator.checks kind ("b" ++ qs ++ String.mk (bs.map Char.ofNat) ++ qs) must_exist must_be_file must_be_dir
  | .vPath p => PathValidator.checks kind p must_exist must_be_file must_be_dir
  | _ => false

/-- validators.py `PathValidator.get_error_message` (branch order of the
source; conversion failure, then the empty-path message, then each failed
predicate). -/
def PathValidator.get_error_message (kind : String → PathKind) (value : PyVal)
    (var_name : String) (must_exist : Option Bool) (must_be_file must_be_dir : Bool) :
    String :=
  match pathConvert value with
  | .error e => qs ++ var_name ++ qs ++ " cannot be converted to a Path: " ++ e
  | .ok p =>
    if isEmptyStrBytes value then qs ++ var_name ++ qs ++ " cannot be an empty path"
    else if must_exist = some true && !(pathExistsB kind p) then
      qs ++ var_name ++ qs ++ " path must exist, but " ++ qs ++ p ++ qs ++ " does not exist"
    else if must_exist = some false && pathExistsB kind p then
      qs ++ var_name ++ qs ++ " path must not exist, but " ++ qs ++ p ++ qs ++ " already exists"
    else if must_be_file && !(pathExistsB kind p) then
      qs ++ var_name ++ qs ++ " must be an existing file, but " ++ qs ++ p ++ qs ++ " does not exist"
    else if must_be_file && !(kind p == PathKind.file) then
      qs ++ var_name ++ qs ++ " must be a file, but " ++ qs ++ p ++ qs ++ " is not a file"
    else if must_be_dir && !(pathExistsB kind p) then
      qs ++ var_name ++ qs ++ " must be an existing directory, but " ++ qs ++ p ++ qs ++ " does not exist"
    else if must_be_dir && !(kind p == PathKind.dir) then
      qs ++ var_name ++ qs ++ " must be a directory, but " ++ qs ++ p ++ qs ++ " is not a directory"
    else qs ++ var_name ++ qs ++ " path validation failed"

/-- type_validation_engine.py `TypeValidationEngine.assert_path`: resolve
the name, convert (raising the configured class on conversion failure,
regardless of `raise_on_failure`), reject empty string-like input (likewise
unconditional), optionally create missing parent directories, then delegate
the predicate checks on the `Path` object to the path validator through
`_validate_with_engine`.  Returns the `Path` string together with the
possibly-updated filesystem. -/
def TypeValidationEngine.assert_path (env : FSEnv) (cfg : ValidationConfig)
    (resolvedName : String) (value : PyVal) (must_exist : Option Bool)
    (must_be_file must_be_dir create_parents : Bool) (msg : Option String) :
    Except PyExc (FSEnv × String) := do
  let var_name := TypeValidationEngine.get_variable_name cfg resolvedName
  let path_obj ← match pathConvert value with
    | .ok p => pure p
    | .error e =>
      match pyOrMsg msg (.ok (qs ++ var_name ++ qs ++ " cannot be converted to a Path: " ++ e)) with
      | .ok m => throw (.validationFailure cfg.custom_error_class m)
      | .error err => throw err
  if isEmptyStrBytes value then
    match pyOrMsg msg (.ok (qs ++ var_name ++ qs ++ " cannot be an empty path")) with
    | .ok m => throw (.validationFailure cfg.custom_error_class m)
    | .error err => throw err
  let env2 ←
    if create_parents && !(pathExistsB env.kind (env.parentOf path_obj)) then
      match env.mkdirParents path_obj with
      | .ok kind2 => pure (FSEnv.mk kind2 env.parentOf env.mkdirParents)
      | .error e =>
        match pyOrMsg msg (.ok (qs ++ var_name ++ qs ++
            " parent directories could not be created: " ++ e)) with
        | .ok m => throw (.validationFailure cfg.custom_error_class m)
        | .error err => throw err
    else pure env
  let _ ← TypeValidationEngine.validate_with_engine cfg resolvedName
      (.ok (PathValidator.validate env2.kind (.vPath path_obj) must_exist must_be_file must_be_dir))
      (fun vn => .ok (PathValidator.get_error_message env2.kind (.vPath path_obj) vn
        must_exist must_be_file must_be_dir)) msg
  return (env2, path_obj)

/-- The keyword overrides accepted by `ValidationContext(engine, **overrides)`:
any subset of the four configuration fields (`none` = not supplied, so
`kwargs.get` falls back to the captured configuration's field). -/
structure ConfigOverrides where
  strict_mode : Option Bool
  auto_extract_names : Option Bool
  raise_on_failure : Option Bool
  custom_error_class : Option Nat
deriving DecidableEq

/-- validation_context.py `ValidationContext.__init__`: stores the engine
reference (implicit here), captures `engine.config` into `original_config`
at construction time, and stores the overrides. -/
structure ValidationContext where
  original_config : ValidationConfig
  config_overrides : ConfigOverrides
deriving DecidableEq

/-- Construction `ValidationContext(engine, **overrides)` with the engine's
configuration currently `engineConfig`. -/
def ValidationContext.init (engineConfig : ValidationConfig) (o : ConfigOverrides) :
    ValidationContext :=
  ValidationContext.mk engineConfig o

/-- validation_context.py `ValidationContext.__enter__`: the configuration
installed on the engine — each override merged over the *captured*
`original_config` (not over the engine's current configuration). -/
def ValidationContext.enterConfig (ctx : ValidationContext) : ValidationConfig :=
  ValidationConfig.mk
    (ctx.config_overrides.strict_mode.getD ctx.original_config.strict_mode)
    (ctx.config_overrides.auto_extract_names.getD ctx.original_config.auto_extract_names)
    (ctx.config_overrides.raise_on_failure.getD ctx.original_config.raise_on_failure)
    (ctx.config_overrides.custom_error_class.getD ctx.original_config.custom_error_class)

/-- validation_context.py `ValidationContext.__exit__`: the configuration
put back on the engine, unconditionally the captured one (`__exit__`
returns `None`, so an exception from the block still propagates). -/
def ValidationContext.exitConfig (ctx : ValidationContext) : ValidationConfig :=
  ctx.original_config

/-- A `with ValidationContext(engine, **o):` statement around `body`, for an
engine whose configuration is `engineConfig`.  The body sees the engine and
may itself read and replace its configuration (hence
`body : ValidationConfig → Except PyExc α × ValidationConfig`); it may
finish normally (`.ok`) or with an exception (`.error`).  Either way
`__exit__` runs and the engine is left with the restored configuration,
while the body's outcome (value or propagating exception) is passed on. -/
def ValidationContext.withScope {α : Type} (o : ConfigOverrides)
    (engineConfig : ValidationConfig)
    (body : ValidationConfig → Except PyExc α × ValidationConfig) :
    Except PyExc α × ValidationConfig :=
  let ctx := ValidationContext.init engineConfig o
  let r := body ctx.enterConfig
  (r.1, ctx.exitConfig)

/-- The configuration states of the C9 scenario: with the engine at `cfg0`,
construct the context; replace the engine's configuration by `cfg1`; then
enter and exit.  Returns (configuration installed by `__enter__`,
configuration after `__exit__`). -/
def captureScenario (cfg0 cfg1 : ValidationConfig) (o : ConfigOverrides) :
    ValidationConfig × ValidationConfig :=
  let ctx := ValidationContext.init cfg0 o
  let _replaced := cfg1
  (ctx.enterConfig, ctx.exitConfig)

/-- factory_functions.py `create_validation_engine`: builds the engine's
configuration from explicit settings. -/
def create_validation_engine (strict_mode auto_extract_names raise_on_failure : Bool)
    (custom_error_class : Nat) : ValidationConfig :=
  ValidationConfig.mk strict_mode auto_extract_names raise_on_failure custom_error_class

/-- factory_functions.py `create_lenient_engine`: "a lenient validation
engine that doesn't raise exceptions" — `strict_mode=False`,
`raise_on_failure=False`, other settings left at their defaults. -/
def create_lenient_engine : ValidationConfig :=
  create_validation_engine false true false typeAssertionErrorId

/-- Decidable equality of outcomes, so that concrete runs of the embedded
operations can be settled by `decide`. -/
instance {ε α : Type} [DecidableEq ε] [DecidableEq α] : DecidableEq (Except ε α) := fun a b =>
  match a, b with
  | .error e, .error f =>
    if h : e = f then .isTrue (congrArg Except.error h)
    else .isFalse (fun c => h (Except.error.inj c))
  | .ok x, .ok y =>
    if h : x = y then .isTrue (congrArg Except.ok h)
    else .isFalse (fun c => h (Except.ok.inj c))
  | .error _, .ok _ => .isFalse (fun c => Except.noConfusion c)
  | .ok _, .error _ => .isFalse (fun c => Except.noConfusion c)

/-- The error message `m` contains `sub` as a contiguous substring. -/
def ContainsStr (big sub : String) : Prop := ∃ l r : String, big = l ++ sub ++ r

theorem containsStr_mid (l s r : String) : ContainsStr (l ++ s ++ r) s := ⟨l, r, rfl⟩

theorem containsStr_of_left (x : String) {b s : String} (h : ContainsStr b s) :
    ContainsStr (x ++ b) s := by
  obtain ⟨l, r, rfl⟩ := h
  exact ⟨x ++ l, r, by simp [String.append_assoc]⟩

theorem containsStr_of_right (x : String) {b s : String} (h : ContainsStr b s) :
    ContainsStr (b ++ x) s := by
  obtain ⟨l, r, rfl⟩ := h
  exact ⟨l, r ++ x, by simp [String.append_assoc]⟩

theorem containsStr_refl (s : String) : ContainsStr s s :=
  ⟨"", "", by rw [String.empty_append, String.append_empty]⟩

/-- Every element of `xs` occurs inside `quoteJoin xs`. -/
theorem quoteJoin_contains {xs : List String} {s : String} (hmem : s ∈ xs) :
    ContainsStr (quoteJoin xs) s := by
  induction xs with
  | nil => cases hmem
  | cons a rest ih =>
    rcases List.mem_cons.mp hmem with h | h
    · subst h
      cases rest with
      | nil => exact containsStr_mid qs s qs
      | cons b tail =>
        show ContainsStr (qs ++ s ++ qs ++ ", " ++ quoteJoin (b :: tail)) s
        exact containsStr_of_right _ (containsStr_of_right _ (containsStr_mid qs s qs))
    · cases rest with
      | nil => cases h
      | cons b tail =>
        show ContainsStr (qs ++ a ++ qs ++ ", " ++ quoteJoin (b :: tail)) s
        exact containsStr_of_left _ (ih h)

/-- Every element of `xs` occurs inside the Python list rendering of `xs`. -/
theorem pyListRepr_contains {xs : List String} {s : String} (hmem : s ∈ xs) :
    ContainsStr (pyListRepr xs) s :=
  containsStr_of_right "]" (containsStr_of_left "[" (quoteJoin_contains hmem))

/-- C8: for every value, invoking the type validator without an expected
type raises the fixed internal `ValueError "expected_type must be provided"`
— not an instance of any configured validation-failure class and not a
boolean result — and `assert_type` propagates exactly that error for every
configuration. -/
theorem claim8_missing_expected_type (value : PyVal) (cfg : ValidationConfig)
    (rn : String) (msg : Option String) :
    TypeValidator.validate value none
      = .error (.valueError "expected_type must be provided") ∧
    TypeValidationEngine.assert_type cfg rn value none msg
      = .error (.valueError "expected_type must be provided") ∧
    (∀ (cls : Nat) (m : String),
      PyExc.valueError "expected_type must be provided" ≠ PyExc.validationFailure cls m) :=
  ⟨rfl, rfl, fun _ _ h => PyExc.noConfusion h⟩

/-- C10: booleans are runtime `int`s, so for every configuration
`assert_numeric b` and `assert_type b int` pass and return `b`, and
`assert_numeric True min_val 0 max_val 1` returns `True` instead of failing
the numeric type check. -/
theorem claim10_bool_is_numeric (cfg : ValidationConfig) (rn : String) (b : Bool) :
    TypeValidationEngine.assert_numeric cfg rn (PyVal.vBool b) none none none
      = .ok (PyVal.vBool b) ∧
    TypeValidationEngine.assert_type cfg rn (PyVal.vBool b)
      (some (.single .tInt)) none = .ok (PyVal.vBool b) ∧
    TypeValidationEngine.assert_numeric cfg rn (PyVal.vBool true) (some 0) (some 1) none
      = .ok (PyVal.vBool true) :=
  ⟨rfl, rfl, rfl⟩

/-- C2 (code bug evidence): the lenient factory preset sets
`raise_on_failure := false`, yet `assert_not_none None`, `assert_path ""`
and an inconvertible `assert_path` argument still raise the configured
error class, because those checks bypass `_validate_with_engine`. -/
theorem claim2_lenient_still_raises :
    create_lenient_engine.raise_on_failure = false ∧
    TypeValidationEngine.assert_not_none create_lenient_engine "my_value" PyVal.vNone none
      = .error (.validationFailure typeAssertionErrorId
          (qs ++ "my_value" ++ qs ++ " must not be None")) ∧
    TypeValidationEngine.assert_path
        (FSEnv.mk (fun _ => PathKind.absent) (fun p => p) (fun _ => .error "denied"))
        create_lenient_engine "my_value" (PyVal.vStr "") none false false false none
      = .error (.validationFailure typeAssertionErrorId
          (qs ++ "my_value" ++ qs ++ " cannot be an empty path")) ∧
    TypeValidationEngine.assert_path
        (FSEnv.mk (fun _ => PathKind.absent) (fun p => p) (fun _ => .error "denied"))
        create_lenient_engine "my_value" (PyVal.vInt 3) none false false false none
      = .error (.validationFailure typeAssertionErrorId
          (qs ++ "my_value" ++ qs ++ " cannot be converted to a Path: " ++
            "argument should be a str or an os.PathLike object, not the given type")) :=
  ⟨rfl, rfl, rfl, rfl⟩

/-- C9: `ValidationContext` captures the engine's configuration at
construction time: replacing the engine's configuration between
construction and entry changes nothing — entry installs the overrides
merged over the construction-time configuration, and exit restores the
construction-time configuration, discarding the replacement. -/
theorem claim9_capture_at_construction (cfg0 cfg1 cfg1' : ValidationConfig)
    (o : ConfigOverrides) :
    (captureScenario cfg0 cfg1 o).2 = cfg0 ∧
    (captureScenario cfg0 cfg1 o).1 = ValidationConfig.mk
      (o.strict_mode.getD cfg0.strict_mode)
      (o.auto_extract_names.getD cfg0.auto_extract_names)
      (o.raise_on_failure.getD cfg0.raise_on_failure)
      (o.custom_error_class.getD cfg0.custom_error_class) ∧
    captureScenario cfg0 cfg1 o = captureScenario cfg0 cfg1' o :=
  ⟨rfl, rfl, rfl⟩

/-- C1: for every subset of overrides, a `with ValidationContext(engine,
**o)` scope installs the merged configuration on entry, passes the body's
outcome through, and restores the entry-time configuration on every exit
path — normal return and an exception propagating out; a nested scope
restores exactly the configuration it displaced (the outer scope's merged
one), so the nest as a whole restores the outermost configuration; and
under a `raise_on_failure=False` override a validation failure inside the
scope does not raise. -/
theorem claim1_validation_context_scope {α : Type} (o o2 ol : ConfigOverrides)
    (cfg : ValidationConfig)
    (body body2 : ValidationConfig → Except PyExc α × ValidationConfig)
    (e : PyExc) (v : PyVal) (et : ExpectedType) (rn : String)
    (hfail : et.member v = false)
    (hlenient : ol.raise_on_failure = some false) :
    (ValidationContext.init cfg o).enterConfig = ValidationConfig.mk
      (o.strict_mode.getD cfg.strict_mode)
      (o.auto_extract_names.getD cfg.auto_extract_names)
      (o.raise_on_failure.getD cfg.raise_on_failure)
      (o.custom_error_class.getD cfg.custom_error_class) ∧
    ValidationContext.withScope o cfg body
      = ((body (ValidationContext.init cfg o).enterConfig).1, cfg) ∧
    (ValidationContext.withScope o cfg body).2 = cfg ∧
    ValidationContext.withScope o cfg
        (fun c => ((Except.error e : Except PyExc α), c))
      = (Except.error e, cfg) ∧
    (ValidationContext.withScope o2 ((ValidationContext.init cfg o).enterConfig) body2).2
      = (ValidationContext.init cfg o).enterConfig ∧
    ValidationContext.withScope o cfg (fun c => ValidationContext.withScope o2 c body2)
      = ((body2 (ValidationContext.init
          (ValidationContext.init cfg o).enterConfig o2).enterConfig).1, cfg) ∧
    ValidationContext.withScope ol cfg (fun c =>
        (TypeValidationEngine.assert_type c rn v (some et) none, c))
      = (Except.ok v, cfg) := by
  refine ⟨rfl, rfl, rfl, rfl, rfl, rfl, ?_⟩
  simp only [ValidationContext.withScope, ValidationContext.init,
    ValidationContext.enterConfig, ValidationContext.exitConfig, hlenient,
    Option.getD_some, TypeValidationEngine.assert_type,
    TypeValidationEngine.validate_with_engine, TypeValidator.validate, hfail]
  rfl

/-- C1 witness: a concrete scope with `raise_on_failure := false` around a
failing `assert_type` neither raises nor disturbs the restored
configuration. -/
theorem claim1_validation_context_scope_witness :
    ValidationContext.withScope (ConfigOverrides.mk none none (some false) none)
        ValidationConfig.default
        (fun c => (TypeValidationEngine.assert_type c "x" (PyVal.vStr "s")
          (some (.single .tInt)) none, c))
      = (Except.ok (PyVal.vStr "s"), ValidationConfig.default) :=
  (claim1_validation_context_scope
    (ConfigOverrides.mk (some false) none none none)
    (ConfigOverrides.mk none (some false) none none)
    (ConfigOverrides.mk none none (some false) none)
    ValidationConfig.default
    (fun c => ((Except.ok (PyVal.vStr "s") : Except PyExc PyVal), c))
    (fun c => ((Except.ok (PyVal.vStr "s") : Except PyExc PyVal), c))
    (PyExc.valueError "boom")
    (PyVal.vStr "s") (ExpectedType.single .tInt) "x" (by decide) rfl).2.2.2.2.2.2

/-- On a dict receiver, the missing-key computation is a plain filter that
keeps the required keys absent from the dict, in the given order. -/
theorem computeMissingKeys_dict (d : List (String × ℚ)) (keys : List String) :
    computeMissingKeys (PyVal.vDict d) keys
      = .ok (keys.filter (fun k => !(d.any (fun kv => kv.1 == k)))) := by
  induction keys with
  | nil => rfl
  | cons k rest ih =>
    simp only [computeMissingKeys, pyContains, ih, List.filter_cons]
    cases hb : d.any (fun kv => kv.1 == k) <;> rfl

/-- C6: on a dict, `assert_mapping` with a list of required keys raises
exactly when some required key is absent, with a message naming all missing
keys in the order given (singular phrasing for exactly one); in particular
`{"a": 1}` against `["a", "b"]` raises naming exactly `'b'`, and `{}`
raises naming `['a', 'b']` in order. -/
theorem claim6_assert_mapping_missing_keys (cfg : ValidationConfig) (rn : String)
    (d : List (String × ℚ)) (keys : List String) :
    TypeValidationEngine.assert_mapping cfg rn (PyVal.vDict d) (some (.list keys)) none
      = (if (keys.filter (fun k => !(d.any (fun kv => kv.1 == k)))).isEmpty
         then .ok (PyVal.vDict d)
         else .error (.validationFailure cfg.custom_error_class
           (missingKeysMsg (TypeValidationEngine.get_variable_name cfg rn)
             (keys.filter (fun k => !(d.any (fun kv => kv.1 == k))))))) ∧
    TypeValidationEngine.assert_mapping ValidationConfig.default "m"
        (PyVal.vDict [("a", 1)]) (some (.list ["a", "b"])) none
      = .error (.validationFailure typeAssertionErrorId
          (qs ++ "m" ++ qs ++ " missing required key: " ++ qs ++ "b" ++ qs)) ∧
    TypeValidationEngine.assert_mapping ValidationConfig.default "m"
        (PyVal.vDict []) (some (.list ["a", "b"])) none
      = .error (.validationFailure typeAssertionErrorId
          (qs ++ "m" ++ qs ++ " missing required keys: [" ++ qs ++ "a" ++ qs ++
            ", " ++ qs ++ "b" ++ qs ++ "]")) := by
  refine ⟨?_, by decide, by decide⟩
  cases hms : keys.filter (fun k => !(d.any (fun kv => kv.1 == k))) with
  | nil =>
    simp only [TypeValidationEngine.assert_mapping,
      TypeValidationEngine.validate_with_engine, TypeValidator.validate,
      ExpectedType.member, isinstanceB, PyVal.typeOf, ReqKeys.toList,
      computeMissingKeys_dict, hms]
    rfl
  | cons a as =>
    simp only [TypeValidationEngine.assert_mapping,
      TypeValidationEngine.validate_with_engine, TypeValidator.validate,
      ExpectedType.member, isinstanceB, PyVal.typeOf, ReqKeys.toList,
      computeMissingKeys_dict, hms]
    rfl

/-- C4 counterexample: with `exact = 3` and `min_len = 5`, the string
`"abc"` has length exactly 3, yet the length validator fails — the min/max
bounds are not ignored when the exact length is set. -/
theorem claim4_exact_length_counterexample :
    ¬ (LengthValidator.validate (PyVal.vStr "abc") (some 5) none (some 3) = true ↔
        pyLen (PyVal.vStr "abc") = some 3) := by
  decide

/-- C4 amended: for a sized value, the length validation with an exact
length `k` passes iff `len(v) = k` AND every supplied `min_len`/`max_len`
bound also holds — the bounds are conjoined with the exact check, not
ignored. -/
theorem claim4_exact_length_conjoined (v : PyVal) (L : Nat) (hL : pyLen v = some L)
    (k : Int) (mn mx : Option Int) :
    LengthValidator.validate v mn mx (some k) = true ↔
      ((L : Int) = k ∧ (∀ m ∈ mn, m ≤ (L : Int)) ∧ (∀ m ∈ mx, (L : Int) ≤ m)) := by
  simp only [LengthValidator.validate, hL]
  cases mn <;> cases mx <;> simp [Option.any, Option.mem_def]

/-- C4 witness: the amended statement at the sized value `"ab"` with
`exact = 2`, `min_len = 1`, `max_len = 5`. -/
theorem claim4_exact_length_witness :
    pyLen (PyVal.vStr "ab") = some 2 ∧
    (LengthValidator.validate (PyVal.vStr "ab") (some 1) (some 5) (some 2) = true ↔
      (((2 : Nat) : Int) = 2 ∧ (∀ m ∈ (some 1 : Option Int), m ≤ ((2 : Nat) : Int)) ∧
        (∀ m ∈ (some 5 : Option Int), ((2 : Nat) : Int) ≤ m))) :=
  ⟨rfl, claim4_exact_length_conjoined (PyVal.vStr "ab") 2 rfl 2 (some 1) (some 5)⟩

/-- Comparisons against a NaN float value are all `False`, whatever the
bound. -/
theorem pyLt_nan_value (b : PyFloat) :
    pyLt (PyVal.vFloat PyFloat.nan) b = .ok false := by
  cases b <;> rfl

/-- Comparisons against a NaN float value are all `False`, whatever the
bound. -/
theorem pyGt_nan_value (b : PyFloat) :
    pyGt (PyVal.vFloat PyFloat.nan) b = .ok false := by
  cases b <;> rfl

/-- C5 counterexample: `assert_numeric(float('nan'), 0, 1)` passes the
range check and returns NaN, although `0 <= nan` and `nan <= 1` are both
false — the claimed "passes iff lo <= v <= hi" fails at a NaN float. -/
theorem claim5_nan_counterexample :
    TypeValidationEngine.assert_numeric ValidationConfig.default "x"
        (PyVal.vFloat PyFloat.nan) (some (PyFloat.val 0)) (some (PyFloat.val 1)) none
      = .ok (PyVal.vFloat PyFloat.nan) ∧
    PyFloat.le (PyFloat.val 0) PyFloat.nan = false ∧
    PyFloat.le PyFloat.nan (PyFloat.val 1) = false := by
  decide

/-- C5 amended: under a raising configuration, `assert_numeric v lo hi` on
an `int` or a finite (non-NaN) `float` with finite bounds passes — returns
the value — iff `lo ≤ v ≤ hi`, each absent bound being unconstrained, and
boundary values `v = lo` and `v = hi` pass; a NaN value passes the range
check for every bounds (every comparison with NaN is false), and NaN
bounds constrain nothing. -/
theorem claim5_assert_numeric_range (sm ae : Bool) (cls : Nat) (rn : String)
    (lo hi : Option ℚ) (q : ℚ) :
    (TypeValidationEngine.assert_numeric (ValidationConfig.mk sm ae true cls) rn
        (PyVal.vInt q) (lo.map PyFloat.val) (hi.map PyFloat.val) none
        = .ok (PyVal.vInt q) ↔
      ((∀ l ∈ lo, l ≤ q) ∧ (∀ h ∈ hi, q ≤ h))) ∧
    (TypeValidationEngine.assert_numeric (ValidationConfig.mk sm ae true cls) rn
        (PyVal.vFloat (PyFloat.val q)) (lo.map PyFloat.val) (hi.map PyFloat.val) none
        = .ok (PyVal.vFloat (PyFloat.val q)) ↔
      ((∀ l ∈ lo, l ≤ q) ∧ (∀ h ∈ hi, q ≤ h))) ∧
    TypeValidationEngine.assert_numeric (ValidationConfig.mk sm ae true cls) rn
      (PyVal.vInt q) (some (PyFloat.val q)) (some (PyFloat.val q)) none
      = .ok (PyVal.vInt q) ∧
    TypeValidationEngine.assert_numeric (ValidationConfig.mk sm ae true cls) rn
      (PyVal.vFloat (PyFloat.val q)) (some (PyFloat.val q)) (some (PyFloat.val q)) none
      = .ok (PyVal.vFloat (PyFloat.val q)) ∧
    (∀ lon hin : Option PyFloat,
      TypeValidationEngine.assert_numeric (ValidationConfig.mk sm ae true cls) rn
        (PyVal.vFloat PyFloat.nan) lon hin none = .ok (PyVal.vFloat PyFloat.nan)) ∧
    TypeValidationEngine.assert_numeric (ValidationConfig.mk sm ae true cls) rn
      (PyVal.vInt q) (some PyFloat.nan) (some PyFloat.nan) none = .ok (PyVal.vInt q) := by
  refine ⟨?_, ?_, ?_, ?_, ?_, ?_⟩ <;>
    [cases lo <;> cases hi; cases lo <;> cases hi; skip; skip;
      (intro lon hin; cases lon <;> cases hin); skip] <;>
    simp [TypeValidationEngine.assert_numeric, TypeValidationEngine.validate_with_engine,
      TypeValidator.validate, ExpectedType.member, isinstanceB, PyVal.typeOf,
      RangeValidator.validate, RangeValidator.get_error_message, pyLt, pyGt,
      pyLt_nan_value, pyGt_nan_value,
      Option.mem_def, Except.pure, Except.instMonad,
      bind, Except.bind, Functor.map, Except.map, pyOrMsg] <;>
    split_ifs <;> simp_all

/-- C5 witness: the boundary conjunct of the amended statement at `v = 5`
with both bounds `5`. -/
theorem claim5_assert_numeric_range_witness :
    TypeValidationEngine.assert_numeric (ValidationConfig.mk true true true 0) "x"
      (PyVal.vInt 5) (some (PyFloat.val 5)) (some (PyFloat.val 5)) none
      = .ok (PyVal.vInt 5) :=
  (claim5_assert_numeric_range true true 0 "x" (some 5) (some 5) 5).2.2.1

/-- Both the subject name and the type name occur in the single-type
mismatch message. -/
theorem typeMsg_single_contains (vn nm gv : String) :
    ContainsStr (qs ++ vn ++ qs ++ " must be of type " ++ qs ++ nm ++ qs ++
      ", but got " ++ qs ++ gv ++ qs) vn ∧
    ContainsStr (qs ++ vn ++ qs ++ " must be of type " ++ qs ++ nm ++ qs ++
      ", but got " ++ qs ++ gv ++ qs) nm := by
  constructor
  · exact containsStr_of_right _ (containsStr_of_right _ (containsStr_of_right _
      (containsStr_of_right _ (containsStr_of_right _ (containsStr_of_right _
      (containsStr_of_right _ (containsStr_of_right _ (containsStr_mid qs vn qs))))))))
  · exact containsStr_of_right _ (containsStr_of_right _ (containsStr_of_right _
      (containsStr_of_right _
        (containsStr_mid (qs ++ vn ++ qs ++ " must be of type " ++ qs) nm qs))))

/-- The subject name and every listed type name occur in the list-of-types
mismatch message. -/
theorem typeMsg_list_contains (vn gv : String) (names : List String) :
    ContainsStr (qs ++ vn ++ qs ++ " must be one of types " ++ pyListRepr names ++
      ", but got " ++ qs ++ gv ++ qs) vn ∧
    (∀ nm ∈ names,
      ContainsStr (qs ++ vn ++ qs ++ " must be one of types " ++ pyListRepr names ++
        ", but got " ++ qs ++ gv ++ qs) nm) := by
  constructor
  · exact containsStr_of_right _ (containsStr_of_right _ (containsStr_of_right _
      (containsStr_of_right _ (containsStr_of_right _ (containsStr_of_right _
      (containsStr_mid qs vn qs))))))
  · intro nm hmem
    exact containsStr_of_right _ (containsStr_of_right _ (containsStr_of_right _
      (containsStr_of_right _
        (containsStr_of_left (qs ++ vn ++ qs ++ " must be one of types ")
          (pyListRepr_contains hmem)))))

/-- C3 counterexample: `True`'s runtime type is `bool`, which is not a
member of `{int}`, yet `assert_type True int` returns `True` instead of
raising — membership is `isinstance`-based, not runtime-type-based. -/
theorem claim3_runtime_type_counterexample :
    TypeValidationEngine.assert_type ValidationConfig.default "x" (PyVal.vBool true)
        (some (.single .tInt)) none = .ok (PyVal.vBool true) ∧
    PyVal.typeOf (PyVal.vBool true) ≠ PyType.tInt := by
  decide

/-- C3 amended: under a raising configuration, `assert_type v T` (T a
single type or a list of types) returns `v` unchanged iff `v` is an
`isinstance` of some type in `T` (subclass-aware, so `bool` counts as
`int`); otherwise it raises the configured error class with a message
containing the subject name and the name of every candidate type in `T`. -/
theorem claim3_assert_type_isinstance (sm ae : Bool) (cls : Nat) (rn : String) (v : PyVal) :
    (∀ t : PyType,
      (isinstanceB v t = true →
        TypeValidationEngine.assert_type (ValidationConfig.mk sm ae true cls) rn v
          (some (.single t)) none = .ok v) ∧
      (isinstanceB v t = false →
        ∃ m, TypeValidationEngine.assert_type (ValidationConfig.mk sm ae true cls) rn v
            (some (.single t)) none = .error (.validationFailure cls m) ∧
          ContainsStr m (TypeValidationEngine.get_variable_name
            (ValidationConfig.mk sm ae true cls) rn) ∧
          ContainsStr m t.pyName)) ∧
    (∀ ts : List PyType,
      (ts.any (fun t => isinstanceB v t) = true →
        TypeValidationEngine.assert_type (ValidationConfig.mk sm ae true cls) rn v
          (some (.listOf ts)) none = .ok v) ∧
      (ts.any (fun t => isinstanceB v t) = false →
        ∃ m, TypeValidationEngine.assert_type (ValidationConfig.mk sm ae true cls) rn v
            (some (.listOf ts)) none = .error (.validationFailure cls m) ∧
          ContainsStr m (TypeValidationEngine.get_variable_name
            (ValidationConfig.mk sm ae true cls) rn) ∧
          ∀ t ∈ ts, ContainsStr m t.pyName)) := by
  refine ⟨fun t => ⟨?_, ?_⟩, fun ts => ⟨?_, ?_⟩⟩
  · intro h
    simp [TypeValidationEngine.assert_type, TypeValidationEngine.validate_with_engine,
      TypeValidator.validate, ExpectedType.member, h, Except.map]
  · intro h
    refine ⟨_, ?_, (typeMsg_single_contains _ t.pyName (PyVal.typeOf v).pyName).1,
      (typeMsg_single_contains _ t.pyName (PyVal.typeOf v).pyName).2⟩
    simp [TypeValidationEngine.assert_type, TypeValidationEngine.validate_with_engine,
      TypeValidator.validate, ExpectedType.member, TypeValidator.get_error_message,
      pyOrMsg, h, Except.map]
  · intro h
    simp [TypeValidationEngine.assert_type, TypeValidationEngine.validate_with_engine,
      TypeValidator.validate, ExpectedType.member, h, Except.map]
  · intro h
    refine ⟨_, ?_, (typeMsg_list_contains _ (PyVal.typeOf v).pyName (ts.map PyType.pyName)).1,
      fun t hmem => (typeMsg_list_contains _ (PyVal.typeOf v).pyName
        (ts.map PyType.pyName)).2 t.pyName (List.mem_map_of_mem _ hmem)⟩
    simp [TypeValidationEngine.assert_type, TypeValidationEngine.validate_with_engine,
      TypeValidator.validate, ExpectedType.member, TypeValidator.get_error_message,
      pyOrMsg, h, Except.map]

/-- C3 witness: the amended statement applied at `3` against the single
type `int`, with the `isinstance` hypothesis discharged concretely. -/
theorem claim3_assert_type_isinstance_witness :
    TypeValidationEngine.assert_type (ValidationConfig.mk true true true 0) "x"
      (PyVal.vInt 3) (some (.single .tInt)) none = .ok (PyVal.vInt 3) :=
  ((claim3_assert_type_isinstance true true 0 "x" (PyVal.vInt 3)).1 PyType.tInt).1
    (by decide)

/-- C7: `assert_path` on an empty or whitespace-only string always raises
the "cannot be an empty path" failure — for every configuration and every
`must_exist`/`must_be_file`/`must_be_dir`/`create_parents` combination —
and that failure is distinct from the conversion failure an inconvertible
value produces; an existing directory passes with `must_be_dir=True` and
fails with `must_be_file=True` (raising under the default configuration). -/
theorem claim7_assert_path_empty_and_dir (env : FSEnv) (cfg : ValidationConfig)
    (rn : String) (s d : String) (me : Option Bool) (mbf mbd cp : Bool)
    (hs : stripIsEmpty s = true)
    (hd0 : stripIsEmpty d = false) (hdir : env.kind d = PathKind.dir) :
    TypeValidationEngine.assert_path env cfg rn (PyVal.vStr s) me mbf mbd cp none
      = .error (.validationFailure cfg.custom_error_class
          (qs ++ TypeValidationEngine.get_variable_name cfg rn ++ qs ++
            " cannot be an empty path")) ∧
    (∀ n : ℚ, TypeValidationEngine.assert_path env cfg rn (PyVal.vInt n) me mbf mbd cp none
      = .error (.validationFailure cfg.custom_error_class
          (qs ++ TypeValidationEngine.get_variable_name cfg rn ++ qs ++
            " cannot be converted to a Path: " ++
            "argument should be a str or an os.PathLike object, not the given type"))) ∧
    (∀ vn : String, (qs ++ vn ++ qs ++ " cannot be an empty path") ≠
      (qs ++ vn ++ qs ++ " cannot be converted to a Path: " ++
        "argument should be a str or an os.PathLike object, not the given type")) ∧
    TypeValidationEngine.assert_path env cfg rn (PyVal.vStr d) none false true false none
      = .ok (env, d) ∧
    PathValidator.validate env.kind (PyVal.vPath d) none false true = true ∧
    PathValidator.validate env.kind (PyVal.vPath d) none true false = false ∧
    TypeValidationEngine.assert_path env ValidationConfig.default rn (PyVal.vStr d)
        none true false false none
      = .error (.validationFailure typeAssertionErrorId
          (qs ++ rn ++ qs ++ " must be a file, but " ++ qs ++ d ++ qs ++ " is not a file")) := by
  refine ⟨?_, ?_, ?_, ?_, ?_, ?_, ?_⟩
  · simp [TypeValidationEngine.assert_path, pathConvert, isEmptyStrBytes, hs, pyOrMsg,
      Except.pure, Except.instMonad, bind, Except.bind]
  · intro n
    simp [TypeValidationEngine.assert_path, pathConvert, isEmptyStrBytes, pyOrMsg,
      Except.pure, Except.instMonad, bind, Except.bind]
  · intro vn h
    have hlen := congrArg String.length h
    have h1 : " cannot be an empty path".length = 24 := rfl
    have h2 : " cannot be converted to a Path: ".length = 32 := rfl
    have h3 : "argument should be a str or an os.PathLike object, not the given type".length
      = 69 := rfl
    simp [String.length_append, h1, h2, h3] at hlen
  · simp [TypeValidationEngine.assert_path, pathConvert, isEmptyStrBytes, hd0, pyOrMsg,
      TypeValidationEngine.validate_with_engine, PathValidator.validate,
      PathValidator.checks, pathExistsB, hdir,
      Except.pure, Except.instMonad, bind, Except.bind]
  · simp [PathValidator.validate, PathValidator.checks, pathExistsB, hdir]
  · simp [PathValidator.validate, PathValidator.checks, pathExistsB, hdir]
  · simp [TypeValidationEngine.assert_path, pathConvert, isEmptyStrBytes, hd0, pyOrMsg,
      TypeValidationEngine.validate_with_engine, PathValidator.validate,
      PathValidator.checks, PathValidator.get_error_message, pathExistsB, hdir,
      TypeValidationEngine.get_variable_name, ValidationConfig.default,
      Except.pure, Except.instMonad, bind, Except.bind]

/-- C7 witness: the empty-path part applied to the whitespace-only string
`" "` with `must_exist=True` set, against a filesystem with one directory. -/
theorem claim7_assert_path_empty_and_dir_witness :
    TypeValidationEngine.assert_path
        (FSEnv.mk (fun p => if p == "home" then PathKind.dir else PathKind.absent)
          (fun p => p) (fun _ => .error "denied"))
        ValidationConfig.default "x" (PyVal.vStr " ") (some true) true true false none
      = .error (.validationFailure ValidationConfig.default.custom_error_class
          (qs ++ TypeValidationEngine.get_variable_name ValidationConfig.default "x" ++
            qs ++ " cannot be an empty path")) :=
  (claim7_assert_path_empty_and_dir
    (FSEnv.mk (fun p => if p == "home" then PathKind.dir else PathKind.absent)
      (fun p => p) (fun _ => .error "denied"))
    ValidationConfig.default "x" " " "home" (some true) true true false
    (by decide) (by decide) (by decide)).1
